import Mathlib

/-!
Verification of the CoreAudio backend of `render_callback` (Rust).

The development shallowly embeds the code of `src/coreaudio/{cf,device,
aggregate_device,session,backend}.rs`.  The native CoreAudio / CoreFoundation
subsystem is an external collaborator; it is modelled by a deterministic
oracle (`HW`) that fixes, for every primitive hardware operation, the
`OSStatus` it returns and the data it produces.  Every embedded function
returns its Rust result (`Except CFError _` for `Result<_, CFError>`) paired
with the ordered list of hardware-side operations it performed (`List Event`),
so that ordering properties can be stated about runs.

Machine integers: `OSStatus` is `i32`, modelled as `Int`; object identifiers
(`AudioObjectID`, `AudioDeviceID`, proc ids) are `u32` values used only as
opaque keys, modelled as `Nat`.  The one place where `u32` arithmetic is
performed on data (`InterleavedBuffer::num_frames`) models the `u32`
multiplication with an explicit `% 2^32` and the possibility of a division
by zero (a Rust panic) with `Option`.
-/

deriving instance DecidableEq for Except

/-- The success status: `noErr as OSStatus` (`noErr` is 0). -/
def noErr : Int := 0

/-- Embeds `pub struct CFError(OSStatus)` from `src/coreaudio/cf.rs`: the
single error kind, wrapping the numeric status code. -/
structure CFError where
  status : Int
deriving DecidableEq

/-- Embeds `check_os_status` from `src/coreaudio/cf.rs` lines 25-31:
`Ok(())` when the status is `noErr`, otherwise `Err(CFError(s))`. -/
def check_os_status (s : Int) : Except CFError Unit :=
  if s = noErr then Except.ok () else Except.error (CFError.mk s)

/-- Embeds `CADevice` from `src/coreaudio/device.rs`: an opaque
`AudioDeviceID` wrapper, value-equatable (`derive(PartialEq, Eq)`). -/
structure CADevice where
  id : Nat
deriving DecidableEq

/-- The property scope used by a stream-configuration query
(`kAudioDevicePropertyScopeInput` / `kAudioDevicePropertyScopeOutput`). -/
inductive CAScope where
  | input
  | output
deriving DecidableEq

/-- One hardware-side operation performed by the embedded code, with the
status the hardware returned for it.  Traces of these events record the
order in which the code talks to the native subsystem. -/
inductive Event where
  | translatePlugIn (bundleId : String) (status : Int)
  | queryDevicesSize (status : Int)
  | queryDevicesData (status : Int)
  | uidQuery (dev : Nat) (status : Int)
  | queryStreamCfgSize (dev : Nat) (scope : CAScope) (status : Int)
  | createAggregate (plugin : Nat) (status : Int)
  | writeSubDevices (dev : Nat) (uids : List String) (status : Int)
  | register (dev : Nat) (status : Int)
  | storeCallback (procId : Nat)
  | start (dev : Nat) (procId : Nat) (status : Int)
  | stop (dev : Nat) (procId : Nat) (status : Int)
  | destroyProc (dev : Nat) (procId : Nat) (status : Int)
  | destroyAggregate (plugin : Nat) (dev : Nat) (status : Int)
deriving DecidableEq

/-- Recognises a sub-device-list write (`AudioObjectSetPropertyData` on
`kAudioAggregateDevicePropertyFullSubDeviceList`). -/
def Event.isWriteSubDevices : Event → Bool
  | Event.writeSubDevices _ _ _ => true
  | _ => false

/-- Recognises a creation query (`kAudioPlugInCreateAggregateDevice`). -/
def Event.isCreateAggregate : Event → Bool
  | Event.createAggregate _ _ => true
  | _ => false

/-- Recognises the start command (`AudioDeviceStart`). -/
def Event.isStart : Event → Bool
  | Event.start _ _ _ => true
  | _ => false

/-- Recognises the storing of the callback pair into the session slot. -/
def Event.isStoreCallback : Event → Bool
  | Event.storeCallback _ => true
  | _ => false

/-- Recognises a session-side command (storing the callback or starting the
clock) — events the aggregate-device layer never performs. -/
def Event.isSessionCmd : Event → Bool
  | Event.storeCallback _ => true
  | Event.start _ _ _ => true
  | _ => false

/-- The deterministic hardware oracle.  Each field fixes what the native
subsystem answers to one primitive operation: a status (checked by the code
through `check_os_status`) and, where the operation produces data, the value
the operation writes into the caller's buffer. -/
structure HW where
  uidStatus : Nat → Int
  uidValue : Nat → String
  writeSubStatus : Nat → List String → Int
  plugInStatus : Int
  plugInValue : Nat
  devicesSizeStatus : Int
  devicesDataStatus : Int
  devices : List Nat
  createStatus : Nat → Int
  createValue : Nat → Nat
  registerStatus : Nat → Int
  registerValue : Nat → Nat
  startStatus : Nat → Nat → Int
  stopStatus : Nat → Nat → Int
  destroyProcStatus : Nat → Nat → Int
  destroyAggStatus : Nat → Nat → Int
  streamCfgSizeStatus : Nat → CAScope → Int
  streamCfg : Nat → CAScope → List Nat

/-- The process-constant virtual-device UID,
`const AGGREGATE_DEVICE_UID` in `src/coreaudio/aggregate_device.rs`. -/
def AGGREGATE_DEVICE_UID : String := "com.github.mhallin.Audioshop"

/-- Embeds `CADevice::uid` (`src/coreaudio/device.rs` lines 34-54): a
`kAudioDevicePropertyDeviceUID` query; on a zero status the retained string
is returned, otherwise the error propagates. -/
def CADevice.uid (hw : HW) (d : CADevice) : Except CFError String × List Event :=
  (Except.map (fun _ => hw.uidValue d.id) (check_os_status (hw.uidStatus d.id)),
   [Event.uidQuery d.id (hw.uidStatus d.id)])

/-- Embeds `struct AggregateDevice` (`src/coreaudio/aggregate_device.rs`
lines 25-30): the plugin id (used only for destruction), the synthesized
virtual device, and the mirrored input/output handles. -/
structure AggregateDevice where
  plugin_id : Nat
  device : CADevice
  input : CADevice
  output : CADevice
deriving DecidableEq

/-- Embeds `AggregateDevice::refresh_sub_device_array`
(`src/coreaudio/aggregate_device.rs` lines 75-104): build a CFArray holding
`input.uid()`, plus `output.uid()` when `input != output` (handle equality),
then write it to `kAudioAggregateDevicePropertyFullSubDeviceList` on the
virtual device, checking the returned status. -/
def AggregateDevice.refresh_sub_device_array (hw : HW) (a : AggregateDevice) :
    Except CFError Unit × List Event :=
  let ui := CADevice.uid hw a.input
  match ui.1 with
  | Except.error e => (Except.error e, ui.2)
  | Except.ok uin =>
    if a.input = a.output then
      let s := hw.writeSubStatus a.device.id [uin]
      (check_os_status s, ui.2 ++ [Event.writeSubDevices a.device.id [uin] s])
    else
      let uo := CADevice.uid hw a.output
      match uo.1 with
      | Except.error e => (Except.error e, ui.2 ++ uo.2)
      | Except.ok uout =>
        let s := hw.writeSubStatus a.device.id [uin, uout]
        (check_os_status s,
         ui.2 ++ uo.2 ++ [Event.writeSubDevices a.device.id [uin, uout] s])

/-- Embeds `get_audio_plugin_id` (`src/coreaudio/aggregate_device.rs` lines
107-139): a `kAudioHardwarePropertyPlugInForBundleID` translation query on
the system object for the bundle `com.apple.audio.CoreAudio`. -/
def get_audio_plugin_id (hw : HW) : Except CFError Nat × List Event :=
  (Except.map (fun _ => hw.plugInValue) (check_os_status hw.plugInStatus),
   [Event.translatePlugIn "com.apple.audio.CoreAudio" hw.plugInStatus])

/-- Embeds `CABackend::all_devices` (`src/coreaudio/backend.rs` lines
30-63): size query then bulk data query on `kAudioHardwarePropertyDevices`,
each status-checked; returns the OS-reported device list in order. -/
def all_devices (hw : HW) : Except CFError (List CADevice) × List Event :=
  match check_os_status hw.devicesSizeStatus with
  | Except.error e => (Except.error e, [Event.queryDevicesSize hw.devicesSizeStatus])
  | Except.ok _ =>
    match check_os_status hw.devicesDataStatus with
    | Except.error e =>
        (Except.error e,
         [Event.queryDevicesSize hw.devicesSizeStatus,
          Event.queryDevicesData hw.devicesDataStatus])
    | Except.ok _ =>
        (Except.ok (hw.devices.map CADevice.mk),
         [Event.queryDevicesSize hw.devicesSizeStatus,
          Event.queryDevicesData hw.devicesDataStatus])

/-- The loop body of `find_existing_aggregate_device`: walk the device list
in order, query each UID (propagating a failed query), and return the first
device whose UID string equals `AGGREGATE_DEVICE_UID`. -/
def find_matching_device (hw : HW) : List CADevice → Except CFError (Option CADevice) × List Event
  | [] => (Except.ok none, [])
  | d :: rest =>
    match CADevice.uid hw d with
    | (Except.error e, t) => (Except.error e, t)
    | (Except.ok u, t) =>
      if u = AGGREGATE_DEVICE_UID then (Except.ok (some d), t)
      else
        match find_matching_device hw rest with
        | (r, t2) => (r, t ++ t2)

/-- Embeds `find_existing_aggregate_device`
(`src/coreaudio/aggregate_device.rs` lines 175-183). -/
def find_existing_aggregate_device (hw : HW) : Except CFError (Option CADevice) × List Event :=
  match all_devices hw with
  | (Except.error e, t) => (Except.error e, t)
  | (Except.ok ds, t) =>
    match find_matching_device hw ds with
    | (r, t2) => (r, t ++ t2)

/-- Embeds `create_aggregate_device` (`src/coreaudio/aggregate_device.rs`
lines 185-231): a qualified `kAudioPlugInCreateAggregateDevice` query against
the plugin (descriptor: name, the fixed UID, private flag), returning the
synthesized device handle. -/
def create_aggregate_device (hw : HW) (plugin : Nat) : Except CFError CADevice × List Event :=
  (Except.map (fun _ => CADevice.mk (hw.createValue plugin))
     (check_os_status (hw.createStatus plugin)),
   [Event.createAggregate plugin (hw.createStatus plugin)])

/-- Embeds `AggregateDevice::new` (`src/coreaudio/aggregate_device.rs` lines
33-51): resolve the plugin, reuse an existing device with the fixed UID or
create one, then unconditionally refresh the sub-device list before
returning. -/
def AggregateDevice.new (hw : HW) (input output : CADevice) :
    Except CFError AggregateDevice × List Event :=
  match get_audio_plugin_id hw with
  | (Except.error e, t0) => (Except.error e, t0)
  | (Except.ok plugin, t0) =>
    match find_existing_aggregate_device hw with
    | (Except.error e, t1) => (Except.error e, t0 ++ t1)
    | (Except.ok found, t1) =>
      match (match found with
             | some d => (Except.ok d, ([] : List Event))
             | none => create_aggregate_device hw plugin) with
      | (Except.error e, t2) => (Except.error e, t0 ++ t1 ++ t2)
      | (Except.ok dev, t2) =>
        let agg := AggregateDevice.mk plugin dev input output
        match AggregateDevice.refresh_sub_device_array hw agg with
        | (Except.ok _, t3) => (Except.ok agg, t0 ++ t1 ++ t2 ++ t3)
        | (Except.error e, t3) => (Except.error e, t0 ++ t1 ++ t2 ++ t3)

/-- Embeds `AggregateDevice::set_input` (`src/coreaudio/aggregate_device.rs`
lines 65-68): replace the stored input handle, then refresh the sub-device
list.  The updated struct is returned alongside the refresh outcome (the
field assignment happens whether or not the refresh succeeds). -/
def AggregateDevice.set_input (hw : HW) (a : AggregateDevice) (input : CADevice) :
    AggregateDevice × (Except CFError Unit × List Event) :=
  let a2 := AggregateDevice.mk a.plugin_id a.device input a.output
  (a2, AggregateDevice.refresh_sub_device_array hw a2)

/-- Embeds `AggregateDevice::set_output` (`src/coreaudio/aggregate_device.rs`
lines 70-73), symmetric to `set_input`. -/
def AggregateDevice.set_output (hw : HW) (a : AggregateDevice) (output : CADevice) :
    AggregateDevice × (Except CFError Unit × List Event) :=
  let a2 := AggregateDevice.mk a.plugin_id a.device a.input output
  (a2, AggregateDevice.refresh_sub_device_array hw a2)

/-- Embeds `struct CASession` (`src/coreaudio/session.rs` lines 18-21).  The
callback slot is `Option<(AudioDeviceIOProcID, Box<RenderCallback>)>`; the
closure itself is opaque to every claim, so the slot is modelled by the
registration id alone. -/
structure CASession where
  device : AggregateDevice
  callback : Option Nat
deriving DecidableEq

/-- Embeds `CASession::new_started` (`src/coreaudio/session.rs` lines
24-53): build the aggregate device, register the trampoline with
`AudioDeviceCreateIOProcID` (obtaining the proc id), store the
`(proc id, callback)` pair into the session's callback slot, and only then
issue `AudioDeviceStart`.  Each status is checked; an error propagates.
(When an error is returned, dropping the boxed session at the caller is a
separate effect, modelled by `CASession.teardown`.) -/
def CASession.new_started (hw : HW) (input output : CADevice) :
    Except CFError CASession × List Event :=
  match AggregateDevice.new hw input output with
  | (Except.error e, t0) => (Except.error e, t0)
  | (Except.ok agg, t0) =>
    let dev := agg.device
    let rs := hw.registerStatus dev.id
    match check_os_status rs with
    | Except.error e => (Except.error e, t0 ++ [Event.register dev.id rs])
    | Except.ok _ =>
      let pid := hw.registerValue dev.id
      let ss := hw.startStatus dev.id pid
      match check_os_status ss with
      | Except.error e =>
          (Except.error e,
           t0 ++ [Event.register dev.id rs, Event.storeCallback pid,
                  Event.start dev.id pid ss])
      | Except.ok _ =>
          (Except.ok (CASession.mk agg (some pid)),
           t0 ++ [Event.register dev.id rs, Event.storeCallback pid,
                  Event.start dev.id pid ss])

/-- Embeds `impl Drop for CASession` (`src/coreaudio/session.rs` lines
64-78): when a callback is registered, `AudioDeviceStop` then
`AudioDeviceDestroyIOProcID`, each status checked and escalated with
`.expect(...)` — a panic, modelled as `Except.error` carrying the panic
message. -/
def CASession.drop (hw : HW) (s : CASession) : Except String Unit × List Event :=
  match s.callback with
  | none => (Except.ok (), [])
  | some pid =>
    let dev := s.device.device
    let st := hw.stopStatus dev.id pid
    match check_os_status st with
    | Except.error _ =>
        (Except.error "Could not stop session", [Event.stop dev.id pid st])
    | Except.ok _ =>
      let dt := hw.destroyProcStatus dev.id pid
      match check_os_status dt with
      | Except.error _ =>
          (Except.error "Could not destroy IOProcID",
           [Event.stop dev.id pid st, Event.destroyProc dev.id pid dt])
      | Except.ok _ =>
          (Except.ok (), [Event.stop dev.id pid st, Event.destroyProc dev.id pid dt])

/-- Embeds `impl Drop for AggregateDevice`
(`src/coreaudio/aggregate_device.rs` lines 141-163): the destroy command
(`kAudioPlugInDestroyAggregateDevice` addressed to the plugin, payload the
virtual device's id), status checked and escalated with `.expect(...)`. -/
def AggregateDevice.drop (hw : HW) (a : AggregateDevice) : Except String Unit × List Event :=
  let s := hw.destroyAggStatus a.plugin_id a.device.id
  match check_os_status s with
  | Except.error _ =>
      (Except.error "Could not destroy aggregate device",
       [Event.destroyAggregate a.plugin_id a.device.id s])
  | Except.ok _ => (Except.ok (), [Event.destroyAggregate a.plugin_id a.device.id s])

/-- The full teardown of a session: Rust runs `CASession::drop`, then drops
the `device` field, running `AggregateDevice::drop`.  A panic (`.expect`)
aborts the sequence. -/
def CASession.teardown (hw : HW) (s : CASession) : Except String Unit × List Event :=
  match CASession.drop hw s with
  | (Except.error m, t) => (Except.error m, t)
  | (Except.ok _, t) =>
    match AggregateDevice.drop hw s.device with
    | (r, t2) => (r, t ++ t2)

/-- Truncation to `u32`, for the one place `u32` arithmetic is performed on
data. -/
def u32 (n : Nat) : Nat := n % 4294967296

/-- Rust `u32` division: panics (no value) when the divisor is zero. -/
def u32_div (a b : Nat) : Option Nat := if b = 0 then none else some (a / b)

/-- Embeds `struct InterleavedBuffer(AudioBuffer)`
(`src/coreaudio/session.rs` line 135): `mNumberChannels` and
`mDataByteSize` are `u32` fields; `mData` is the backing native memory,
modelled as samples indexed by position (`f32` sample values are opaque to
every claim, so a sample is an abstract `Int` bit pattern). -/
structure InterleavedBuffer where
  mNumberChannels : Nat
  mDataByteSize : Nat
  mData : Nat → Int

/-- Embeds `InterleavedBuffer::num_frames` (`src/coreaudio/session.rs`
lines 138-140): `mDataByteSize / (4 * mNumberChannels)` in `u32`
arithmetic, with no guard against a zero divisor. -/
def InterleavedBuffer.num_frames (b : InterleavedBuffer) : Option Nat :=
  u32_div b.mDataByteSize (u32 (4 * b.mNumberChannels))

/-- Embeds `InterleavedBuffer::num_channels` (`src/coreaudio/session.rs`
lines 142-144). -/
def InterleavedBuffer.num_channels (b : InterleavedBuffer) : Nat :=
  b.mNumberChannels

/-- Embeds `InterleavedBuffer::interleaved_frames`
(`src/coreaudio/session.rs` lines 146-151): a slice of
`num_frames() * num_channels()` samples starting at `mData`. -/
def InterleavedBuffer.interleaved_frames (b : InterleavedBuffer) : Option (List Int) :=
  match b.num_frames with
  | none => none
  | some nf => some ((List.range (nf * b.num_channels)).map b.mData)

/-- Embeds `InterleavedBuffer::interleaved_frames_mut`
(`src/coreaudio/session.rs` lines 153-158): the writable view over the same
`num_frames() * num_channels()` samples. -/
def InterleavedBuffer.interleaved_frames_mut (b : InterleavedBuffer) : Option (List Int) :=
  match b.num_frames with
  | none => none
  | some nf => some ((List.range (nf * b.num_channels)).map b.mData)

/-- Embeds the native `AudioBufferList` as handed to the trampoline: a
variable-length run of `AudioBuffer` entries; `mNumberBuffers` is the length
of `mBuffers`. -/
structure AudioBufferList where
  mBuffers : List InterleavedBuffer

/-- Embeds `session_io_proc` (`src/coreaudio/session.rs` lines 80-115).
Null pointers become `none`.  The result records the returned `OSStatus`
and, when the user callback was invoked, the input and output buffer views
passed to it (`none` when it was not invoked). -/
def session_io_proc (session : Option CASession) (in_input_data : Option AudioBufferList)
    (out_output_data : Option AudioBufferList) :
    Int × Option (List InterleavedBuffer × List InterleavedBuffer) :=
  match session, in_input_data, out_output_data with
  | some s, some i, some o =>
    match s.callback with
    | some _ => (noErr, some (i.mBuffers, o.mBuffers))
    | none => (noErr, none)
  | _, _, _ => (noErr, none)

/-- The byte size of the C struct `AudioBufferList` (one `u32`
`mNumberBuffers`, 4 bytes padding, one 16-byte `AudioBuffer`) on the 64-bit
targets of `coreaudio-sys`: the divisor
`std::mem::size_of::<AudioBufferList>()` used by `num_inputs` /
`num_outputs` in `src/coreaudio/device.rs`. -/
def sizeOfAudioBufferList : Nat := 24

/-- The byte size reported by the hardware for a
`kAudioDevicePropertyStreamConfiguration` query on a device whose stream
configuration has one `AudioBuffer` per stream (per the property's
documentation in `src/coreaudio/properties.rs`): the variable-length
`AudioBufferList` occupies 8 header bytes plus 16 bytes per buffer. -/
def ablByteSize (cfg : List Nat) : Nat := 8 + 16 * cfg.length

/-- The channel count described by a stream configuration: the sum of
`mNumberChannels` over the configuration's streams (the property
"describes the list of streams and the number of channels in each stream",
`src/coreaudio/properties.rs` lines 304-307). -/
def channelCount (cfg : List Nat) : Nat := cfg.sum

/-- Embeds `CADevice::num_inputs` (`src/coreaudio/device.rs` lines 69-88):
query only the SIZE of the input-scope stream-configuration property and
divide it by `size_of::<AudioBufferList>()`. -/
def CADevice.num_inputs (hw : HW) (d : CADevice) : Except CFError Nat × List Event :=
  let s := hw.streamCfgSizeStatus d.id CAScope.input
  (Except.map (fun _ => ablByteSize (hw.streamCfg d.id CAScope.input) / sizeOfAudioBufferList)
     (check_os_status s),
   [Event.queryStreamCfgSize d.id CAScope.input s])

/-- Embeds `CADevice::num_outputs` (`src/coreaudio/device.rs` lines
90-109), symmetric to `num_inputs` at output scope. -/
def CADevice.num_outputs (hw : HW) (d : CADevice) : Except CFError Nat × List Event :=
  let s := hw.streamCfgSizeStatus d.id CAScope.output
  (Except.map (fun _ => ablByteSize (hw.streamCfg d.id CAScope.output) / sizeOfAudioBufferList)
     (check_os_status s),
   [Event.queryStreamCfgSize d.id CAScope.output s])

/-- The sub-device list `refresh_sub_device_array` is specified to write:
the input device's UID alone when input and output coincide, else the pair
in (input, output) order. -/
def expectedSubDeviceList (hw : HW) (a : AggregateDevice) : List String :=
  if a.input = a.output then [hw.uidValue a.input.id]
  else [hw.uidValue a.input.id, hw.uidValue a.output.id]

/-- The first device of the oracle's device list whose UID is the fixed
aggregate UID — the device `find_existing_aggregate_device` is specified to
reuse. -/
def firstMatchingDevice (hw : HW) : Option CADevice :=
  (hw.devices.map CADevice.mk).find? (fun d => hw.uidValue d.id = AGGREGATE_DEVICE_UID)

/-- Scans a trace and decides that no start command occurs before a
callback-store: walking from the left, reaching a store first (or never
seeing a start) is acceptable, reaching a start first is not. -/
def noStartBeforeStore : List Event → Bool
  | [] => true
  | Event.start _ _ _ :: _ => false
  | Event.storeCallback _ :: _ => true
  | _ :: rest => noStartBeforeStore rest

/-- A hardware oracle on which every operation succeeds: no device present,
plugin 7, created aggregate device 42, proc id 99, device UIDs rendered from
their numeric ids, one stereo stream per device. -/
def hwOk : HW :=
  ⟨fun _ => 0, fun n => toString n, fun _ _ => 0, 0, 7, 0, 0, [], fun _ => 0,
   fun _ => 42, fun _ => 0, fun _ => 99, fun _ _ => 0, fun _ _ => 0,
   fun _ _ => 0, fun _ _ => 0, fun _ _ => 0, fun _ _ => [2]⟩

/-- Like `hwOk`, but devices 4 and 5 are present and device 5 carries the
fixed aggregate UID. -/
def hwReuse : HW :=
  ⟨fun _ => 0, fun n => if n = 5 then AGGREGATE_DEVICE_UID else toString n,
   fun _ _ => 0, 0, 7, 0, 0, [4, 5], fun _ => 0, fun _ => 42, fun _ => 0,
   fun _ => 99, fun _ _ => 0, fun _ _ => 0, fun _ _ => 0, fun _ _ => 0,
   fun _ _ => 0, fun _ _ => [2]⟩

/-- Like `hwOk`, but every sub-device-list write fails with status -1. -/
def hwWriteFails : HW :=
  ⟨fun _ => 0, fun n => toString n, fun _ _ => -1, 0, 7, 0, 0, [], fun _ => 0,
   fun _ => 42, fun _ => 0, fun _ => 99, fun _ _ => 0, fun _ _ => 0,
   fun _ _ => 0, fun _ _ => 0, fun _ _ => 0, fun _ _ => [2]⟩

/-- A sample aggregate device: plugin 7, virtual device 42, routing 1 → 2. -/
def aggSample : AggregateDevice :=
  AggregateDevice.mk 7 (CADevice.mk 42) (CADevice.mk 1) (CADevice.mk 2)

/-- A sample started session over `aggSample` with proc id 99. -/
def sessSample : CASession := CASession.mk aggSample (some 99)

/-- C8: `check_os_status` succeeds exactly on the success status `noErr`,
and otherwise returns the single error kind wrapping exactly the numeric
status it was given. -/
theorem check_os_status_single_error_kind (s : Int) :
    (check_os_status s = Except.ok () ↔ s = noErr) ∧
    (s ≠ noErr → check_os_status s = Except.error (CFError.mk s)) := by
  constructor
  · constructor
    · intro h
      by_contra hs
      simp [check_os_status, hs] at h
    · intro h
      simp [check_os_status, h]
  · intro h
    simp [check_os_status, h]

/-- Witness for C8 at the concrete statuses -50 (failure) and 0 (success). -/
theorem check_os_status_single_error_kind_witness :
    check_os_status (-50) = Except.error (CFError.mk (-50)) ∧
    check_os_status 0 = Except.ok () :=
  ⟨(check_os_status_single_error_kind (-50)).2 (by decide),
   (check_os_status_single_error_kind 0).1.mpr rfl⟩

/-- C10: `num_frames` performs `mDataByteSize / (4 * mNumberChannels)` with
no guard, so on every buffer whose channel count is zero the division
divides by zero — a panic (no result), also reached through
`interleaved_frames`. -/
theorem num_frames_zero_channels_panics (b : InterleavedBuffer)
    (h : b.mNumberChannels = 0) :
    b.num_frames = none ∧ b.interleaved_frames = none := by
  have hz : u32 (4 * b.mNumberChannels) = 0 := by simp [u32, h]
  refine ⟨?_, ?_⟩
  · simp [InterleavedBuffer.num_frames, u32_div, hz]
  · simp [InterleavedBuffer.interleaved_frames, InterleavedBuffer.num_frames, u32_div, hz]

/-- Witness for C10 at a concrete zero-channel buffer. -/
theorem num_frames_zero_channels_panics_witness :
    (InterleavedBuffer.mk 0 1024 (fun _ => 0)).num_frames = none :=
  (num_frames_zero_channels_panics (InterleavedBuffer.mk 0 1024 (fun _ => 0)) rfl).1

/-- C9: on every buffer with a representable non-zero channel count,
`num_frames` is the byte size divided by 4 (the `f32` sample width) times
the channel count, `num_channels` is the channel count, and the
`interleaved_frames` / `interleaved_frames_mut` views have exactly
`num_frames * num_channels` samples. -/
theorem interleaved_buffer_shape (b : InterleavedBuffer)
    (h1 : 0 < b.mNumberChannels) (h2 : 4 * b.mNumberChannels < 4294967296) :
    b.num_frames = some (b.mDataByteSize / (4 * b.mNumberChannels)) ∧
    b.num_channels = b.mNumberChannels ∧
    (∀ fr, b.interleaved_frames = some fr →
        fr.length = b.mDataByteSize / (4 * b.mNumberChannels) * b.mNumberChannels) ∧
    (∀ fw, b.interleaved_frames_mut = some fw →
        fw.length = b.mDataByteSize / (4 * b.mNumberChannels) * b.mNumberChannels) := by
  have hu : u32 (4 * b.mNumberChannels) = 4 * b.mNumberChannels := Nat.mod_eq_of_lt h2
  have hne : 4 * b.mNumberChannels ≠ 0 := by omega
  have hnf : b.num_frames = some (b.mDataByteSize / (4 * b.mNumberChannels)) := by
    simp [InterleavedBuffer.num_frames, u32_div, hu, hne]
  refine ⟨hnf, rfl, ?_, ?_⟩
  · intro fr hfr
    simp [InterleavedBuffer.interleaved_frames, hnf, InterleavedBuffer.num_channels] at hfr
    simp [← hfr]
  · intro fw hfw
    simp [InterleavedBuffer.interleaved_frames_mut, hnf, InterleavedBuffer.num_channels] at hfw
    simp [← hfw]

/-- Witness for C9 at a concrete stereo buffer of 32 bytes: 4 frames. -/
theorem interleaved_buffer_shape_witness :
    (InterleavedBuffer.mk 2 32 (fun _ => 0)).num_frames = some 4 :=
  (interleaved_buffer_shape (InterleavedBuffer.mk 2 32 (fun _ => 0))
    (by decide) (by decide)).1

/-- C4: `session_io_proc` always returns the success status `noErr`, and
whenever the session pointer, the input buffer list or the output buffer
list is null, the user render callback is not invoked (the invocation is a
no-op that still reports success). -/
theorem session_io_proc_total_and_null_safe (session : Option CASession)
    (i o : Option AudioBufferList) :
    (session_io_proc session i o).1 = noErr ∧
    ((session = none ∨ i = none ∨ o = none) → (session_io_proc session i o).2 = none) := by
  constructor
  · rcases session with _ | s
    · rfl
    · rcases i with _ | ib
      · rfl
      · rcases o with _ | ob
        · rfl
        · rcases hc : s.callback with _ | pid <;> simp [session_io_proc, hc]
  · intro h
    rcases session with _ | s
    · rfl
    · rcases i with _ | ib
      · rfl
      · rcases o with _ | ob
        · rfl
        · rcases h with h | h | h <;> simp at h

/-- Witness for C4: a null session pointer yields no callback invocation. -/
theorem session_io_proc_total_and_null_safe_witness :
    (session_io_proc none (some (AudioBufferList.mk []))
      (some (AudioBufferList.mk []))).2 = none :=
  (session_io_proc_total_and_null_safe none (some (AudioBufferList.mk []))
    (some (AudioBufferList.mk []))).2 (Or.inl rfl)

/-- C7: `set_input` (resp. `set_output`) replaces the stored field and then
runs `refresh_sub_device_array` on the updated struct; in particular, when
the refresh returns an error the in-memory field already holds the new
handle (the operation is not atomic). -/
theorem set_routing_nonatomic (hw : HW) (a : AggregateDevice) (d : CADevice) :
    (AggregateDevice.set_input hw a d).1 =
      AggregateDevice.mk a.plugin_id a.device d a.output ∧
    (AggregateDevice.set_input hw a d).2 =
      AggregateDevice.refresh_sub_device_array hw
        (AggregateDevice.mk a.plugin_id a.device d a.output) ∧
    (∀ e, (AggregateDevice.set_input hw a d).2.1 = Except.error e →
        (AggregateDevice.set_input hw a d).1.input = d) ∧
    (AggregateDevice.set_output hw a d).1 =
      AggregateDevice.mk a.plugin_id a.device a.input d ∧
    (AggregateDevice.set_output hw a d).2 =
      AggregateDevice.refresh_sub_device_array hw
        (AggregateDevice.mk a.plugin_id a.device a.input d) ∧
    (∀ e, (AggregateDevice.set_output hw a d).2.1 = Except.error e →
        (AggregateDevice.set_output hw a d).1.output = d) :=
  ⟨rfl, rfl, fun _ _ => rfl, rfl, rfl, fun _ _ => rfl⟩

/-- Witness for C7: with a hardware oracle whose sub-device-list write
fails, the stored input field nevertheless holds the new handle. -/
theorem set_routing_nonatomic_witness :
    (AggregateDevice.set_input hwWriteFails aggSample (CADevice.mk 9)).1.input =
      CADevice.mk 9 :=
  (set_routing_nonatomic hwWriteFails aggSample (CADevice.mk 9)).2.2.1
    (CFError.mk (-1)) (by decide)

/-- C3 (failing evaluation): `num_inputs` divides the byte size of the
stream-configuration property by `size_of::<AudioBufferList>()`.  On a
device whose input configuration is one stereo stream the property's byte
size is 24, so `num_inputs` returns 1, but the configuration's channel
count is 2 — the result is not the input channel count. -/
theorem num_inputs_not_channel_count :
    (CADevice.num_inputs hwOk (CADevice.mk 3)).1 = Except.ok 1 ∧
    channelCount (hwOk.streamCfg 3 CAScope.input) = 2 ∧ (1 : Nat) ≠ 2 := by
  refine ⟨?_, rfl, by decide⟩
  simp [CADevice.num_inputs, hwOk, check_os_status, Except.map, ablByteSize,
    sizeOfAudioBufferList, noErr]

/-- Case characterization of `refresh_sub_device_array`: the run queries the
input UID, then (for distinct handles) the output UID, then performs the one
sub-device-list write with the expected list, each step gated by its
status. -/
theorem refresh_run_eq (hw : HW) (a : AggregateDevice) :
    AggregateDevice.refresh_sub_device_array hw a =
      if hw.uidStatus a.input.id = noErr then
        if a.input = a.output then
          (check_os_status
             (hw.writeSubStatus a.device.id (expectedSubDeviceList hw a)),
           [Event.uidQuery a.input.id (hw.uidStatus a.input.id),
            Event.writeSubDevices a.device.id (expectedSubDeviceList hw a)
              (hw.writeSubStatus a.device.id (expectedSubDeviceList hw a))])
        else
          if hw.uidStatus a.output.id = noErr then
            (check_os_status
               (hw.writeSubStatus a.device.id (expectedSubDeviceList hw a)),
             [Event.uidQuery a.input.id (hw.uidStatus a.input.id),
              Event.uidQuery a.output.id (hw.uidStatus a.output.id),
              Event.writeSubDevices a.device.id (expectedSubDeviceList hw a)
                (hw.writeSubStatus a.device.id (expectedSubDeviceList hw a))])
          else
            (Except.error (CFError.mk (hw.uidStatus a.output.id)),
             [Event.uidQuery a.input.id (hw.uidStatus a.input.id),
              Event.uidQuery a.output.id (hw.uidStatus a.output.id)])
      else
        (Except.error (CFError.mk (hw.uidStatus a.input.id)),
         [Event.uidQuery a.input.id (hw.uidStatus a.input.id)]) := by
  by_cases h1 : hw.uidStatus a.input.id = noErr
  · by_cases hio : a.input = a.output
    · have h1o : hw.uidStatus a.output.id = noErr := hio ▸ h1
      simp [AggregateDevice.refresh_sub_device_array, CADevice.uid, check_os_status,
        Except.map, expectedSubDeviceList, h1, h1o, hio]
    · by_cases h2 : hw.uidStatus a.output.id = noErr
      · simp [AggregateDevice.refresh_sub_device_array, CADevice.uid, check_os_status,
          Except.map, expectedSubDeviceList, h1, hio, h2]
      · simp [AggregateDevice.refresh_sub_device_array, CADevice.uid, check_os_status,
          Except.map, expectedSubDeviceList, h1, hio, h2]
  · simp [AggregateDevice.refresh_sub_device_array, CADevice.uid, check_os_status,
      Except.map, h1]

/-- C1: in every run of `refresh_sub_device_array`, every sub-device-list
write targets the virtual device and carries exactly the expected list —
the input UID alone when input = output, else (input UID, output UID) in
that order — and every successful run performs exactly one such write. -/
theorem refresh_sub_device_shape (hw : HW) (a : AggregateDevice) :
    (∀ d us s, Event.writeSubDevices d us s ∈
        (AggregateDevice.refresh_sub_device_array hw a).2 →
        d = a.device.id ∧ us = expectedSubDeviceList hw a) ∧
    ((AggregateDevice.refresh_sub_device_array hw a).1 = Except.ok () →
        (AggregateDevice.refresh_sub_device_array hw a).2.filter Event.isWriteSubDevices =
          [Event.writeSubDevices a.device.id (expectedSubDeviceList hw a) noErr]) := by
  rw [refresh_run_eq]
  by_cases h1 : hw.uidStatus a.input.id = noErr
  · rw [if_pos h1]
    by_cases hio : a.input = a.output
    · rw [if_pos hio]
      constructor
      · intro d us s hmem
        simp only [List.mem_cons, List.not_mem_nil, or_false] at hmem
        rcases hmem with hmem | hmem
        · exact Event.noConfusion hmem
        · injection hmem with hd hus hs
          exact ⟨hd, hus⟩
      · intro hok
        by_cases hws : hw.writeSubStatus a.device.id (expectedSubDeviceList hw a) = noErr
        · rw [hws]
          simp [List.filter, Event.isWriteSubDevices]
        · simp [check_os_status, hws] at hok
    · rw [if_neg hio]
      by_cases h2 : hw.uidStatus a.output.id = noErr
      · rw [if_pos h2]
        constructor
        · intro d us s hmem
          simp only [List.mem_cons, List.not_mem_nil, or_false] at hmem
          rcases hmem with hmem | hmem | hmem
          · exact Event.noConfusion hmem
          · exact Event.noConfusion hmem
          · injection hmem with hd hus hs
            exact ⟨hd, hus⟩
        · intro hok
          by_cases hws : hw.writeSubStatus a.device.id (expectedSubDeviceList hw a) = noErr
          · rw [hws]
            simp [List.filter, Event.isWriteSubDevices]
          · simp [check_os_status, hws] at hok
      · rw [if_neg h2]
        constructor
        · intro d us s hmem
          simp only [List.mem_cons, List.not_mem_nil, or_false] at hmem
          rcases hmem with hmem | hmem
          · exact Event.noConfusion hmem
          · exact Event.noConfusion hmem
        · intro hok
          simp at hok
  · rw [if_neg h1]
    constructor
    · intro d us s hmem
      simp only [List.mem_cons, List.not_mem_nil, or_false] at hmem
      exact Event.noConfusion hmem
    · intro hok
      simp at hok


/-- Witness for C1: a successful refresh of `aggSample` (input 1, output 2
on virtual device 42, all statuses zero) performs exactly one write, with
the two UIDs in (input, output) order. -/
theorem refresh_sub_device_shape_witness :
    (AggregateDevice.refresh_sub_device_array hwOk aggSample).2.filter
        Event.isWriteSubDevices =
      [Event.writeSubDevices aggSample.device.id (expectedSubDeviceList hwOk aggSample) noErr] :=
  (refresh_sub_device_shape hwOk aggSample).2 (by rfl)

/-- An event that is not a session command is neither a start nor a
callback-store. -/
theorem not_sessionCmd (e : Event) (h : e.isSessionCmd = false) :
    e.isStart = false ∧ e.isStoreCallback = false := by
  cases e <;> simp_all [Event.isSessionCmd, Event.isStart, Event.isStoreCallback]

/-- Scanning for a premature start skips over any run of events that are
neither starts nor callback-stores. -/
theorem noStartBeforeStore_append (l m : List Event)
    (h : ∀ e ∈ l, e.isStart = false ∧ e.isStoreCallback = false) :
    noStartBeforeStore (l ++ m) = noStartBeforeStore m := by
  induction l with
  | nil => rfl
  | cons e rest ih =>
    have he := h e (List.mem_cons_self e rest)
    have hrest : ∀ x ∈ rest, x.isStart = false ∧ x.isStoreCallback = false :=
      fun x hx => h x (List.mem_cons_of_mem e hx)
    have ih2 := ih hrest
    cases e with
    | start d p s => simp [Event.isStart] at he
    | storeCallback p => simp [Event.isStoreCallback] at he
    | translatePlugIn b s => simpa [noStartBeforeStore] using ih2
    | queryDevicesSize s => simpa [noStartBeforeStore] using ih2
    | queryDevicesData s => simpa [noStartBeforeStore] using ih2
    | uidQuery d s => simpa [noStartBeforeStore] using ih2
    | queryStreamCfgSize d sc s => simpa [noStartBeforeStore] using ih2
    | createAggregate p s => simpa [noStartBeforeStore] using ih2
    | writeSubDevices d us s => simpa [noStartBeforeStore] using ih2
    | register d s => simpa [noStartBeforeStore] using ih2
    | stop d p s => simpa [noStartBeforeStore] using ih2
    | destroyProc d p s => simpa [noStartBeforeStore] using ih2
    | destroyAggregate p d s => simpa [noStartBeforeStore] using ih2

/-- A successful scan of a device list returns exactly the first device
whose UID is the fixed aggregate UID. -/
theorem find_matching_success (hw : HW) :
    ∀ (l : List CADevice) (found : Option CADevice) (t : List Event),
      find_matching_device hw l = (Except.ok found, t) →
      found = l.find? (fun d => hw.uidValue d.id = AGGREGATE_DEVICE_UID) := by
  intro l
  induction l with
  | nil =>
    intro found t h
    simp [find_matching_device] at h
    simp [← h.1]
  | cons d rest ih =>
    intro found t h
    by_cases hd : hw.uidStatus d.id = noErr
    · by_cases hu : hw.uidValue d.id = AGGREGATE_DEVICE_UID
      · simp [find_matching_device, CADevice.uid, check_os_status, Except.map, hd, hu] at h
        simp [List.find?, hu, ← h.1]
      · rcases hrec : find_matching_device hw rest with ⟨r2, t2⟩
        simp [find_matching_device, CADevice.uid, check_os_status, Except.map, hd, hu,
          hrec] at h
        have hfound := ih found t2 (by rw [hrec, h.1])
        simp [List.find?, hu, hfound]
    · simp [find_matching_device, CADevice.uid, check_os_status, Except.map, hd] at h

/-- Every event of a device-list scan is a property operation: no session
command, no creation query. -/
theorem find_matching_no_cmd (hw : HW) :
    ∀ (l : List CADevice), ∀ e ∈ (find_matching_device hw l).2,
      e.isSessionCmd = false ∧ e.isCreateAggregate = false := by
  intro l
  induction l with
  | nil =>
    intro e he
    simp [find_matching_device] at he
  | cons d rest ih =>
    intro e he
    by_cases hd : hw.uidStatus d.id = noErr
    · by_cases hu : hw.uidValue d.id = AGGREGATE_DEVICE_UID
      · simp [find_matching_device, CADevice.uid, check_os_status, Except.map, hd, hu] at he
        subst he
        exact ⟨rfl, rfl⟩
      · rcases hrec : find_matching_device hw rest with ⟨r2, t2⟩
        simp [find_matching_device, CADevice.uid, check_os_status, Except.map, hd, hu,
          hrec] at he
        rcases he with he | he
        · subst he
          exact ⟨rfl, rfl⟩
        · exact ih e (by rw [hrec]; exact he)
    · simp [find_matching_device, CADevice.uid, check_os_status, Except.map, hd] at he
      subst he
      exact ⟨rfl, rfl⟩

/-- Every event of the device-list query is a property operation. -/
theorem all_devices_no_cmd (hw : HW) :
    ∀ e ∈ (all_devices hw).2, e.isSessionCmd = false ∧ e.isCreateAggregate = false := by
  intro e he
  by_cases h1 : hw.devicesSizeStatus = noErr
  · by_cases h2 : hw.devicesDataStatus = noErr
    · simp [all_devices, check_os_status, h1, h2] at he
      rcases he with he | he <;> (subst he; exact ⟨rfl, rfl⟩)
    · simp [all_devices, check_os_status, h1, h2] at he
      rcases he with he | he <;> (subst he; exact ⟨rfl, rfl⟩)
  · simp [all_devices, check_os_status, h1] at he
    subst he
    exact ⟨rfl, rfl⟩

/-- Every event of `find_existing_aggregate_device` is a property
operation. -/
theorem find_existing_no_cmd (hw : HW) :
    ∀ e ∈ (find_existing_aggregate_device hw).2,
      e.isSessionCmd = false ∧ e.isCreateAggregate = false := by
  intro e he
  unfold find_existing_aggregate_device at he
  rcases had : all_devices hw with ⟨r1, t1⟩
  rw [had] at he
  cases r1 with
  | error err =>
    simp at he
    exact all_devices_no_cmd hw e (by rw [had]; exact he)
  | ok ds =>
    rcases hfm : find_matching_device hw ds with ⟨r2, t2⟩
    simp [hfm, List.mem_append] at he
    rcases he with he | he
    · exact all_devices_no_cmd hw e (by rw [had]; exact he)
    · exact find_matching_no_cmd hw ds e (by rw [hfm]; exact he)

/-- Every event of a sub-device-list refresh is a property operation. -/
theorem refresh_no_cmd (hw : HW) (a : AggregateDevice) :
    ∀ e ∈ (AggregateDevice.refresh_sub_device_array hw a).2,
      e.isSessionCmd = false ∧ e.isCreateAggregate = false := by
  intro e he
  rw [refresh_run_eq] at he
  by_cases h1 : hw.uidStatus a.input.id = noErr
  · rw [if_pos h1] at he
    by_cases hio : a.input = a.output
    · rw [if_pos hio] at he
      simp only [List.mem_cons, List.not_mem_nil, or_false] at he
      rcases he with he | he <;> (subst he; exact ⟨rfl, rfl⟩)
    · rw [if_neg hio] at he
      by_cases h2 : hw.uidStatus a.output.id = noErr
      · rw [if_pos h2] at he
        simp only [List.mem_cons, List.not_mem_nil, or_false] at he
        rcases he with he | he | he <;> (subst he; exact ⟨rfl, rfl⟩)
      · rw [if_neg h2] at he
        simp only [List.mem_cons, List.not_mem_nil, or_false] at he
        rcases he with he | he <;> (subst he; exact ⟨rfl, rfl⟩)
  · rw [if_neg h1] at he
    simp only [List.mem_cons, List.not_mem_nil, or_false] at he
    subst he
    exact ⟨rfl, rfl⟩

/-- A successful `find_existing_aggregate_device` returns exactly the first
present device carrying the fixed aggregate UID. -/
theorem find_existing_success (hw : HW) (found : Option CADevice) (t : List Event)
    (h : find_existing_aggregate_device hw = (Except.ok found, t)) :
    found = firstMatchingDevice hw := by
  unfold find_existing_aggregate_device at h
  by_cases h1 : hw.devicesSizeStatus = noErr
  · by_cases h2 : hw.devicesDataStatus = noErr
    · rcases hfm : find_matching_device hw (hw.devices.map CADevice.mk) with ⟨r2, t2⟩
      simp [all_devices, check_os_status, h1, h2, hfm] at h
      have := find_matching_success hw (hw.devices.map CADevice.mk) found t2
        (by rw [hfm, h.1])
      exact this
    · simp [all_devices, check_os_status, h1, h2] at h
  · simp [all_devices, check_os_status, h1] at h

/-- Full characterization of a successful `AggregateDevice::new` run: the
requested routing is stored; an existing device with the fixed UID is
reused (and no creation query is issued), otherwise the creation query
produces the device; the run ends with a successful sub-device refresh; and
no session command is ever performed. -/
theorem aggregate_new_run (hw : HW) (input output : CADevice)
    (agg : AggregateDevice) (tr : List Event)
    (h : AggregateDevice.new hw input output = (Except.ok agg, tr)) :
    agg.input = input ∧ agg.output = output ∧
    (∀ d, firstMatchingDevice hw = some d →
        agg.device = d ∧ ∀ e ∈ tr, e.isCreateAggregate = false) ∧
    (firstMatchingDevice hw = none →
        agg.device = CADevice.mk (hw.createValue hw.plugInValue) ∧
        Event.createAggregate hw.plugInValue noErr ∈ tr) ∧
    (AggregateDevice.refresh_sub_device_array hw agg).1 = Except.ok () ∧
    (∃ t0, tr = t0 ++ (AggregateDevice.refresh_sub_device_array hw agg).2) ∧
    (∀ e ∈ tr, e.isSessionCmd = false) := by
  unfold AggregateDevice.new at h
  by_cases hp : hw.plugInStatus = noErr
  · simp only [get_audio_plugin_id, check_os_status, hp, if_pos, Except.map] at h
    rcases hfe : find_existing_aggregate_device hw with ⟨r1, t1⟩
    rw [hfe] at h
    cases r1 with
    | error err => simp at h
    | ok found =>
      have hfound : found = firstMatchingDevice hw := find_existing_success hw found t1 hfe
      cases found with
      | some d =>
        rcases hrf : AggregateDevice.refresh_sub_device_array hw
            (AggregateDevice.mk hw.plugInValue d input output) with ⟨rr, t3⟩
        simp only [hrf] at h
        cases rr with
        | error e2 => simp at h
        | ok u =>
          simp only [Prod.mk.injEq, Except.ok.injEq] at h
          obtain ⟨hagg, htr⟩ := h
          subst hagg
          subst htr
          refine ⟨rfl, rfl, ?_, ?_, ?_, ?_, ?_⟩
          · intro d2 hd2
            rw [← hfound] at hd2
            injection hd2 with hd2
            subst hd2
            refine ⟨rfl, ?_⟩
            intro e he
            simp [List.mem_append] at he
            rcases he with he | he | he
            · subst he; rfl
            · exact (find_existing_no_cmd hw e (by rw [hfe]; exact he)).2
            · exact (refresh_no_cmd hw _ e (by rw [hrf]; exact he)).2
          · intro hnone
            rw [← hfound] at hnone
            exact absurd hnone (by simp)
          · rw [hrf]
          · refine ⟨[Event.translatePlugIn "com.apple.audio.CoreAudio" noErr] ++ t1, ?_⟩
            rw [hrf]
            simp
          · intro e he
            simp [List.mem_append] at he
            rcases he with he | he | he
            · subst he; rfl
            · exact (find_existing_no_cmd hw e (by rw [hfe]; exact he)).1
            · exact (refresh_no_cmd hw _ e (by rw [hrf]; exact he)).1
      | none =>
        by_cases hc : hw.createStatus hw.plugInValue = noErr
        · simp only [create_aggregate_device, check_os_status, hc, if_pos, Except.map] at h
          rcases hrf : AggregateDevice.refresh_sub_device_array hw
              (AggregateDevice.mk hw.plugInValue
                (CADevice.mk (hw.createValue hw.plugInValue)) input output) with ⟨rr, t3⟩
          simp only [hrf] at h
          cases rr with
          | error e2 => simp at h
          | ok u =>
            simp only [Prod.mk.injEq, Except.ok.injEq] at h
            obtain ⟨hagg, htr⟩ := h
            subst hagg
            subst htr
            refine ⟨rfl, rfl, ?_, ?_, ?_, ?_, ?_⟩
            · intro d2 hd2
              rw [← hfound] at hd2
              exact absurd hd2 (by simp)
            · intro hnone
              refine ⟨rfl, ?_⟩
              simp [List.mem_append]
            · rw [hrf]
            · refine ⟨[Event.translatePlugIn "com.apple.audio.CoreAudio" noErr] ++ t1 ++
                [Event.createAggregate hw.plugInValue noErr], ?_⟩
              rw [hrf]
            · intro e he
              simp [List.mem_append] at he
              rcases he with he | he | he | he
              · subst he; rfl
              · exact (find_existing_no_cmd hw e (by rw [hfe]; exact he)).1
              · subst he; rfl
              · exact (refresh_no_cmd hw _ e (by rw [hrf]; exact he)).1
        · simp [create_aggregate_device, check_os_status, hc, Except.map] at h
  · simp [get_audio_plugin_id, check_os_status, hp, Except.map] at h

/-- C2: every successful `AggregateDevice::new` run reuses the first present
device whose UID equals the fixed constant UID (issuing no creation query),
issues the creation query exactly when no such device exists, and in both
branches finishes with a successful sub-device refresh of the requested
(input, output) pair — so construction is idempotent in the virtual-device
handle and leaves routing matching the request. -/
theorem aggregate_new_reuse_and_refresh (hw : HW) (input output : CADevice)
    (agg : AggregateDevice) (tr : List Event)
    (h : AggregateDevice.new hw input output = (Except.ok agg, tr)) :
    agg.input = input ∧ agg.output = output ∧
    (∀ d, firstMatchingDevice hw = some d →
        agg.device = d ∧ ∀ e ∈ tr, e.isCreateAggregate = false) ∧
    (firstMatchingDevice hw = none →
        agg.device = CADevice.mk (hw.createValue hw.plugInValue) ∧
        Event.createAggregate hw.plugInValue noErr ∈ tr) ∧
    (AggregateDevice.refresh_sub_device_array hw agg).1 = Except.ok () ∧
    ∃ t0, tr = t0 ++ (AggregateDevice.refresh_sub_device_array hw agg).2 := by
  obtain ⟨h1, h2, h3, h4, h5, h6, h7⟩ := aggregate_new_run hw input output agg tr h
  exact ⟨h1, h2, h3, h4, h5, h6⟩

/-- Witness for C2: with devices 4 and 5 present and device 5 carrying the
fixed UID, construction reuses device 5 and issues no creation query. -/
theorem aggregate_new_reuse_and_refresh_witness :
    (AggregateDevice.mk 7 (CADevice.mk 5) (CADevice.mk 1) (CADevice.mk 2)).device =
      CADevice.mk 5 ∧
    Event.createAggregate 7 0 ∉
      [Event.translatePlugIn "com.apple.audio.CoreAudio" 0,
       Event.queryDevicesSize 0, Event.queryDevicesData 0,
       Event.uidQuery 4 0, Event.uidQuery 5 0,
       Event.uidQuery 1 0, Event.uidQuery 2 0,
       Event.writeSubDevices 5 ["1", "2"] 0] := by
  have H := (aggregate_new_reuse_and_refresh hwReuse (CADevice.mk 1) (CADevice.mk 2)
      (AggregateDevice.mk 7 (CADevice.mk 5) (CADevice.mk 1) (CADevice.mk 2))
      [Event.translatePlugIn "com.apple.audio.CoreAudio" 0,
       Event.queryDevicesSize 0, Event.queryDevicesData 0,
       Event.uidQuery 4 0, Event.uidQuery 5 0,
       Event.uidQuery 1 0, Event.uidQuery 2 0,
       Event.writeSubDevices 5 ["1", "2"] 0]
      (by decide)).2.2.1 (CADevice.mk 5) (by decide)
  refine ⟨H.1, fun hmem => ?_⟩
  simpa [Event.isCreateAggregate] using H.2 _ hmem

/-- C5: in every successful run of `CASession::new_started`, the hardware
operations end with: register the trampoline (obtaining the proc id), store
the (proc id, callback) pair in the session's callback slot, and only then
issue the start command; nothing earlier in the run is a store or a start,
so the start command is never issued before the slot is populated. -/
theorem session_start_order (hw : HW) (input output : CADevice) (sess : CASession)
    (tr : List Event)
    (h : CASession.new_started hw input output = (Except.ok sess, tr)) :
    sess.callback = some (hw.registerValue sess.device.device.id) ∧
    noStartBeforeStore tr = true ∧
    ∃ t0, tr = t0 ++
        [Event.register sess.device.device.id noErr,
         Event.storeCallback (hw.registerValue sess.device.device.id),
         Event.start sess.device.device.id (hw.registerValue sess.device.device.id) noErr] ∧
      ∀ e ∈ t0, e.isStart = false ∧ e.isStoreCallback = false := by
  unfold CASession.new_started at h
  rcases hagg : AggregateDevice.new hw input output with ⟨ra, t0⟩
  rw [hagg] at h
  cases ra with
  | error err => simp at h
  | ok agg =>
    by_cases hr : hw.registerStatus agg.device.id = noErr
    · by_cases hs : hw.startStatus agg.device.id (hw.registerValue agg.device.id) = noErr
      · simp [check_os_status, hr, hs] at h
        obtain ⟨hsess, htr⟩ := h
        subst hsess
        subst htr
        have hrun := aggregate_new_run hw input output agg t0 (by rw [hagg])
        have hnc : ∀ e ∈ t0, e.isStart = false ∧ e.isStoreCallback = false :=
          fun e he => not_sessionCmd e (hrun.2.2.2.2.2.2 e he)
        refine ⟨rfl, ?_, t0, rfl, hnc⟩
        rw [noStartBeforeStore_append t0 _ hnc]
        rfl
      · simp [check_os_status, hr, hs] at h
    · simp [check_os_status, hr] at h

/-- Witness for C5: a concrete successful start (fresh creation of device
42, proc id 99) whose trace passes the premature-start scan. -/
theorem session_start_order_witness :
    CASession.new_started hwOk (CADevice.mk 1) (CADevice.mk 2) =
      (Except.ok (CASession.mk aggSample (some 99)),
       [Event.translatePlugIn "com.apple.audio.CoreAudio" 0,
        Event.queryDevicesSize 0, Event.queryDevicesData 0,
        Event.createAggregate 7 0,
        Event.uidQuery 1 0, Event.uidQuery 2 0,
        Event.writeSubDevices 42 ["1", "2"] 0,
        Event.register 42 0, Event.storeCallback 99, Event.start 42 99 0]) ∧
    noStartBeforeStore
      [Event.translatePlugIn "com.apple.audio.CoreAudio" 0,
       Event.queryDevicesSize 0, Event.queryDevicesData 0,
       Event.createAggregate 7 0,
       Event.uidQuery 1 0, Event.uidQuery 2 0,
       Event.writeSubDevices 42 ["1", "2"] 0,
       Event.register 42 0, Event.storeCallback 99, Event.start 42 99 0] = true := by
  constructor
  · decide
  · exact (session_start_order hwOk (CADevice.mk 1) (CADevice.mk 2)
      (CASession.mk aggSample (some 99))
      [Event.translatePlugIn "com.apple.audio.CoreAudio" 0,
       Event.queryDevicesSize 0, Event.queryDevicesData 0,
       Event.createAggregate 7 0,
       Event.uidQuery 1 0, Event.uidQuery 2 0,
       Event.writeSubDevices 42 ["1", "2"] 0,
       Event.register 42 0, Event.storeCallback 99, Event.start 42 99 0]
      (by decide)).2.1

/-- C6: for every session with a registered callback, teardown performs, in
order, the stop command, the proc-id release, then the aggregate-device
destroy command; a non-zero status at any of the three steps aborts the
sequence with the corresponding panic message instead of retrying or
ignoring it. -/
theorem teardown_order_and_escalation (hw : HW) (s : CASession) (pid : Nat)
    (h : s.callback = some pid) :
    (hw.stopStatus s.device.device.id pid = noErr ∧
     hw.destroyProcStatus s.device.device.id pid = noErr ∧
     hw.destroyAggStatus s.device.plugin_id s.device.device.id = noErr →
      CASession.teardown hw s =
        (Except.ok (),
         [Event.stop s.device.device.id pid noErr,
          Event.destroyProc s.device.device.id pid noErr,
          Event.destroyAggregate s.device.plugin_id s.device.device.id noErr])) ∧
    (hw.stopStatus s.device.device.id pid ≠ noErr →
      CASession.teardown hw s =
        (Except.error "Could not stop session",
         [Event.stop s.device.device.id pid (hw.stopStatus s.device.device.id pid)])) ∧
    (hw.stopStatus s.device.device.id pid = noErr →
      hw.destroyProcStatus s.device.device.id pid ≠ noErr →
      CASession.teardown hw s =
        (Except.error "Could not destroy IOProcID",
         [Event.stop s.device.device.id pid noErr,
          Event.destroyProc s.device.device.id pid
            (hw.destroyProcStatus s.device.device.id pid)])) ∧
    (hw.stopStatus s.device.device.id pid = noErr →
      hw.destroyProcStatus s.device.device.id pid = noErr →
      hw.destroyAggStatus s.device.plugin_id s.device.device.id ≠ noErr →
      CASession.teardown hw s =
        (Except.error "Could not destroy aggregate device",
         [Event.stop s.device.device.id pid noErr,
          Event.destroyProc s.device.device.id pid noErr,
          Event.destroyAggregate s.device.plugin_id s.device.device.id
            (hw.destroyAggStatus s.device.plugin_id s.device.device.id)])) := by
  refine ⟨?_, ?_, ?_, ?_⟩
  · rintro ⟨h1, h2, h3⟩
    simp [CASession.teardown, CASession.drop, AggregateDevice.drop, check_os_status,
      h, h1, h2, h3]
  · intro h1
    simp [CASession.teardown, CASession.drop, AggregateDevice.drop, check_os_status,
      h, h1]
  · intro h1 h2
    simp [CASession.teardown, CASession.drop, AggregateDevice.drop, check_os_status,
      h, h1, h2]
  · intro h1 h2 h3
    simp [CASession.teardown, CASession.drop, AggregateDevice.drop, check_os_status,
      h, h1, h2, h3]

/-- Witness for C6: teardown of `sessSample` on the all-success oracle
performs stop, proc release, destroy — in that order. -/
theorem teardown_order_and_escalation_witness :
    CASession.teardown hwOk sessSample =
      (Except.ok (),
       [Event.stop 42 99 noErr, Event.destroyProc 42 99 noErr,
        Event.destroyAggregate 7 42 noErr]) :=
  (teardown_order_and_escalation hwOk sessSample 99 rfl).1 ⟨rfl, rfl, rfl⟩
